import Mathlib

/-!
Verification of `src/bin/powerprofile-tray.py` (smart-power-profiles).

The program manipulates four flag files under the user's cache directory
(`powerprofile.state`, `powerprofile.last`, `powerprofile.override`,
`powerprofile.silent`), shells out to `powerprofilesctl`, and runs a GTK
tray indicator with a 1-second poll timer.

Shallow embedding: the filesystem is a record of the four files (each
`Option String`: `none` = absent) plus a flag for the cache directory;
an environment record injects the outcome of each fallible primitive
(file reads, `os.makedirs`, file writes, `os.remove`, `subprocess.run`)
so that the broad `try/except Exception: pass` blocks of the source can
be modelled faithfully: on a primitive failure the function returns the
partial state accumulated so far, exactly as the Python `except: pass`
does.  External commands invoked are collected in a trace list.
-/

namespace PowerProfileTray

/-- Python `str.title()` restricted to the character classes the program
meets: a letter is uppercased when the preceding character is not a
letter, lowercased otherwise; non-letters are copied and reset the word
boundary. -/
def pyTitle (s : String) : String :=
  (s.foldl
    (fun (acc : String × Bool) c =>
      if c.isAlpha then
        (acc.1.push (if acc.2 then c.toLower else c.toUpper), true)
      else
        (acc.1.push c, false))
    (("", false) : String × Bool)).1

/-- The `PROFILE_NAMES` dict of the source: the three known profiles and
their human-readable names; `none` for any other key (dict `.get` miss). -/
def PROFILE_NAMES (p : String) : Option String :=
  if p = "power-saver" then some "Power Saver"
  else if p = "balanced" then some "Balanced"
  else if p = "performance" then some "Performance"
  else none

/-- `label_for(profile, auto)`:
`f"{prefix}: {PROFILE_NAMES.get(profile, profile.title())}"` with prefix
`"A"` when auto else `"M"`. -/
def label_for (profile : String) (auto : Bool) : String :=
  (if auto then "A" else "M") ++ ": " ++
    ((PROFILE_NAMES profile).getD (pyTitle profile))

/-- The filesystem state the program observes: the cache directory and
the four flag files.  `none` means the file is absent; `some c` that it
exists with content `c`. -/
structure FS where
  cacheDir : Bool
  stateFile : Option String
  lastFile : Option String
  override : Option String
  silent : Option String
deriving DecidableEq, Repr

/-- Outcomes of the fallible primitives: whether each read / mkdir /
write / remove / subprocess invocation succeeds, and the raw stdout of
`powerprofilesctl get` (empty models a failed live query, since the
source maps any failure to empty stdout). -/
structure Env where
  stateReadOk : Bool
  lastReadOk : Bool
  liveOut : String
  mkdirOk : Bool
  writeOk : Bool
  removeOk : Bool
  setCmdOk : Bool
deriving DecidableEq, Repr

/-- All fallible primitives succeed. -/
def Env.Ok (env : Env) : Prop :=
  env.stateReadOk = true ∧ env.lastReadOk = true ∧ env.mkdirOk = true ∧
    env.writeOk = true ∧ env.removeOk = true ∧ env.setCmdOk = true

instance (env : Env) : Decidable env.Ok := by
  unfold Env.Ok
  infer_instance

/-- One iteration of the loop body of `read_cached_profile` for a single
path: `if os.path.exists(path): val = open(path).read().strip(); if val:
return val`, with the whole body in a `try/except: pass` — a failed read
or an empty-after-strip value falls through to the next path (`none`). -/
def readOne (readOk : Bool) (file : Option String) : Option String :=
  match file with
  | none => none
  | some c =>
    if readOk then
      if c.trim = "" then none else some c.trim
    else none

/-- `read_cached_profile()`: prefer `STATE_FILE`, fall back to
`LAST_FILE`, else `None`. -/
def read_cached_profile (env : Env) (fs : FS) : Option String :=
  match readOne env.stateReadOk fs.stateFile with
  | some v => some v
  | none => readOne env.lastReadOk fs.lastFile

/-- `read_live_profile()`: `sh("powerprofilesctl get") or "balanced"`,
where `sh` returns the stripped stdout (empty on any failure). -/
def read_live_profile (env : Env) : String :=
  if env.liveOut.trim = "" then "balanced" else env.liveOut.trim

/-- `get_profile()`: `cached if cached else read_live_profile()`
(`read_cached_profile` never yields an empty string, so Python
truthiness coincides with `Option` matching). -/
def get_profile (env : Env) (fs : FS) : String :=
  match read_cached_profile env fs with
  | some c => c
  | none => read_live_profile env

/-- `is_auto()`: `not os.path.exists(OVERRIDE)`. -/
def is_auto (fs : FS) : Bool :=
  fs.override.isNone

/-- `notifications_enabled()`: `not os.path.exists(SILENT)`. -/
def notifications_enabled (fs : FS) : Bool :=
  fs.silent.isNone

/-- A shell command invoked via `subprocess.run`, as its argv list. -/
abbrev Cmd := List String

/-- `set_state(mode)`.  The whole body sits in `try/except Exception:
pass`, so a failing primitive aborts the rest of the body but keeps the
effects already performed.  Steps, in source order:
`os.makedirs(CACHE_DIR, exist_ok=True)` (succeeds when the directory
exists, else when creation succeeds); for `"auto"` remove the override
file if present; otherwise open the override file for writing and write
`mode`; finally, for non-`"auto"` modes, invoke
`powerprofilesctl set <mode>`.  Returns the resulting filesystem and the
trace of external commands invoked. -/
def set_state (env : Env) (mode : String) (fs : FS) : FS × List Cmd :=
  if fs.cacheDir || env.mkdirOk then
    let fs1 : FS := { fs with cacheDir := true }
    if mode = "auto" then
      match fs1.override with
      | some _ =>
        if env.removeOk then ({ fs1 with override := none }, [])
        else (fs1, [])
      | none => (fs1, [])
    else
      if env.writeOk then
        let fs2 : FS := { fs1 with override := some mode }
        if env.setCmdOk then (fs2, [["powerprofilesctl", "set", mode]])
        else (fs2, [])
      else (fs1, [])
  else (fs, [])

/-- `toggle_notifications(enable)`: same `try/except` shape; `enable`
removes the silence file if present, otherwise the file is (re)written
with content `"1"`. -/
def toggle_notifications (env : Env) (enable : Bool) (fs : FS) : FS :=
  if fs.cacheDir || env.mkdirOk then
    let fs1 : FS := { fs with cacheDir := true }
    if enable then
      match fs1.silent with
      | some _ =>
        if env.removeOk then { fs1 with silent := none } else fs1
      | none => fs1
    else
      if env.writeOk then { fs1 with silent := some "1" } else fs1
  else fs

/-- The `(profile, auto, notify)` tuple of `Tray._tick`. -/
abbrev Snapshot := String × Bool × Bool

/-- The mutable tray state relevant to `_tick`: `self._last_snapshot`
(initialised to `None` in `__init__`). -/
structure TrayState where
  lastSnapshot : Option Snapshot
deriving DecidableEq, Repr

/-- Observable outcome of one `_tick` call: the new tray state, whether
`_apply_label` ran, whether `build_menu` ran, and the boolean returned
to GLib (`True` keeps the timer armed). -/
structure TickResult where
  tray : TrayState
  labelUpdated : Bool
  menuRebuilt : Bool
  keepTimer : Bool
deriving DecidableEq, Repr

/-- `Tray._tick`: recompute the snapshot; when it differs from
`self._last_snapshot` update the label, rebuild the menu and remember
the snapshot; always `return True`. -/
def tick (env : Env) (fs : FS) (t : TrayState) : TickResult :=
  let snap : Snapshot := (get_profile env fs, is_auto fs, notifications_enabled fs)
  if some snap ≠ t.lastSnapshot then
    { tray := { lastSnapshot := some snap },
      labelUpdated := true, menuRebuilt := true, keepTimer := true }
  else
    { tray := t, labelUpdated := false, menuRebuilt := false, keepTimer := true }

/-- `Tray._on_auto(w)`: `set_state("auto" if w.get_active() else
"balanced")` (the subsequent `build_menu()` touches no file). -/
def on_auto (env : Env) (active : Bool) (fs : FS) : FS × List Cmd :=
  set_state env (if active then "auto" else "balanced") fs

/-- `Tray._on_pick(w, mode)`: returns immediately when the item is being
deactivated (`not w.get_active()`), else `set_state(mode)` (the menu
re-check loop and `build_menu()` touch no file). -/
def on_pick (env : Env) (active : Bool) (mode : String) (fs : FS) : FS × List Cmd :=
  if active then set_state env mode fs else (fs, [])

/-- The filesystem-affecting operations of the program, for stating the
override-file invariant over arbitrary interleavings. -/
inductive Op where
  | setState (mode : String)
  | toggleNotif (enable : Bool)
  | onAuto (active : Bool)
  | onPick (active : Bool) (mode : String)
deriving DecidableEq, Repr

/-- Filesystem effect of one operation. -/
def applyOp (env : Env) (fs : FS) : Op → FS
  | .setState m => (set_state env m fs).1
  | .toggleNotif b => toggle_notifications env b fs
  | .onAuto b => (on_auto env b fs).1
  | .onPick b m => (on_pick env b m fs).1

/-- Filesystem effect of a sequence of operations. -/
def applyOps (env : Env) (fs : FS) : List Op → FS
  | [] => fs
  | op :: rest => applyOps env (applyOp env fs op) rest

/-- Spec-level prediction of the override-file content after one
operation: the argument of the last effective `set_state` call
(`"auto"` removing the file), other operations leaving it alone. -/
def overrideAfter (o : Option String) : Op → Option String
  | .setState m => if m = "auto" then none else some m
  | .toggleNotif _ => o
  | .onAuto b => if b then none else some "balanced"
  | .onPick b m => if b then (if m = "auto" then none else some m) else o

/-- Spec-level prediction after a sequence of operations. -/
def overrideAfterOps (o : Option String) : List Op → Option String
  | [] => o
  | op :: rest => overrideAfterOps (overrideAfter o op) rest

/-- Rendering of the spec sentence for `get_profile` (claim C1), written
from the claim's words: the stripped content of the state file when it
exists, is readable and strips to non-empty; else likewise the
last-applied file; else the stripped live-query output; else
`"balanced"`. -/
def availableContent (readOk : Bool) (file : Option String) : Option String :=
  match file with
  | none => none
  | some c => if readOk && !(c.trim = "") then some c.trim else none

/-- The full claimed fallback chain for `get_profile` (claim C1). -/
def get_profile_spec (env : Env) (fs : FS) : String :=
  match availableContent env.stateReadOk fs.stateFile with
  | some v => v
  | none =>
    match availableContent env.lastReadOk fs.lastFile with
    | some v => v
    | none => if env.liveOut.trim = "" then "balanced" else env.liveOut.trim

/-- An environment in which every primitive succeeds and the live query
returns `"performance\n"`. -/
def envOK : Env :=
  { stateReadOk := true, lastReadOk := true, liveOut := "performance\n",
    mkdirOk := true, writeOk := true, removeOk := true, setCmdOk := true }

/-- An environment in which every primitive fails and the live query
returns nothing. -/
def envAllFail : Env :=
  { stateReadOk := false, lastReadOk := false, liveOut := "",
    mkdirOk := false, writeOk := false, removeOk := false, setCmdOk := false }

/-- Failing writes and subprocess, but an existing-directory-friendly
mkdir and successful reads. -/
def envNoWrite : Env :=
  { stateReadOk := true, lastReadOk := true, liveOut := "",
    mkdirOk := true, writeOk := false, removeOk := true, setCmdOk := true }

/-- Empty filesystem with the cache directory present. -/
def fsEmpty : FS :=
  { cacheDir := true, stateFile := none, lastFile := none,
    override := none, silent := none }

/-- Empty filesystem with the cache directory absent. -/
def fsNoCache : FS :=
  { cacheDir := false, stateFile := none, lastFile := none,
    override := none, silent := none }

/-- A filesystem with both cached-profile files populated. -/
def fsCached : FS :=
  { cacheDir := true, stateFile := some "power-saver\n",
    lastFile := some "balanced", override := some "performance",
    silent := some "1" }

/-- A sample operation sequence for the override invariant. -/
def ops0 : List Op :=
  [Op.setState "performance", Op.toggleNotif false, Op.onAuto true,
   Op.onPick true "power-saver", Op.onPick false "balanced"]

/-! ### Helper lemmas -/

theorem readOne_eq_availableContent (ok : Bool) (file : Option String) :
    readOne ok file = availableContent ok file := by
  cases file with
  | none => rfl
  | some c =>
    cases ok with
    | false => simp [readOne, availableContent]
    | true =>
      by_cases h : c.trim = "" <;> simp [readOne, availableContent, h]

theorem set_state_manual_eq (env : Env) (fs : FS) (mode : String)
    (hm : mode ≠ "auto") (henv : env.Ok) :
    set_state env mode fs =
      ({ fs with cacheDir := true, override := some mode },
       [["powerprofilesctl", "set", mode]]) := by
  obtain ⟨h1, h2, h3, h4, h5, h6⟩ := henv
  simp [set_state, h3, h4, h6, hm]

theorem set_state_auto_eq (env : Env) (fs : FS) (henv : env.Ok) :
    set_state env "auto" fs = ({ fs with cacheDir := true, override := none }, []) := by
  obtain ⟨h1, h2, h3, h4, h5, h6⟩ := henv
  cases fs with
  | mk cd st lf ov si =>
    cases ov <;> simp [set_state, h3, h5]

theorem set_state_override (env : Env) (henv : env.Ok) (m : String) (fs : FS) :
    (set_state env m fs).1.override = if m = "auto" then none else some m := by
  by_cases hm : m = "auto"
  · subst hm
    rw [set_state_auto_eq env fs henv]
    simp
  · rw [set_state_manual_eq env fs m hm henv]
    simp [hm]

theorem toggle_preserves_override (env : Env) (enable : Bool) (fs : FS) :
    (toggle_notifications env enable fs).override = fs.override := by
  cases env with
  | mk sr lr lo mkd wo ro so =>
    cases fs with
    | mk cd st lf ov si =>
      cases si <;> cases enable <;> cases wo <;> cases ro <;> cases cd <;> cases mkd <;> rfl

theorem toggle_ok_true (env : Env) (fs : FS) (henv : env.Ok) :
    toggle_notifications env true fs = { fs with cacheDir := true, silent := none } := by
  obtain ⟨h1, h2, h3, h4, h5, h6⟩ := henv
  cases fs with
  | mk cd st lf ov si =>
    cases si <;> simp [toggle_notifications, h3, h5]

theorem toggle_ok_false (env : Env) (fs : FS) (henv : env.Ok) :
    toggle_notifications env false fs = { fs with cacheDir := true, silent := some "1" } := by
  obtain ⟨h1, h2, h3, h4, h5, h6⟩ := henv
  simp [toggle_notifications, h3, h4]

theorem applyOp_override (env : Env) (henv : env.Ok) (fs : FS) (op : Op) :
    (applyOp env fs op).override = overrideAfter fs.override op := by
  cases op with
  | setState m =>
    simpa [applyOp, overrideAfter] using set_state_override env henv m fs
  | toggleNotif b =>
    simp [applyOp, overrideAfter, toggle_preserves_override]
  | onAuto b =>
    show (set_state env (if b then "auto" else "balanced") fs).1.override = _
    rw [set_state_override env henv]
    cases b <;> simp [overrideAfter]
  | onPick b m =>
    cases b with
    | false => simp [applyOp, on_pick, overrideAfter]
    | true =>
      show (set_state env m fs).1.override = _
      rw [set_state_override env henv]
      simp [overrideAfter]

/-! ### Claims -/

/-- Claim C1: for every filesystem and subprocess environment,
`get_profile()` returns the stripped content of the state file when it
exists, is readable and strips to non-empty; otherwise likewise the
stripped content of the last-applied file; otherwise the stripped output
of the live `powerprofilesctl get` query; and `"balanced"` when the live
query yields empty output — all failures fall through the chain. -/
theorem c1_get_profile_chain (env : Env) (fs : FS) :
    get_profile env fs = get_profile_spec env fs := by
  cases h1 : availableContent env.stateReadOk fs.stateFile <;>
    cases h2 : availableContent env.lastReadOk fs.lastFile <;>
      simp [get_profile, get_profile_spec, read_cached_profile, read_live_profile,
            readOne_eq_availableContent, h1, h2]

/-- Claim C2: for every mode other than `"auto"`, `set_state(mode)`
ensures the cache directory exists, writes exactly `mode` as the entire
content of the override file, and invokes `powerprofilesctl set mode`;
nothing else on the filesystem changes. -/
theorem c2_set_state_manual (env : Env) (fs : FS) (mode : String)
    (hm : mode ≠ "auto") (henv : env.Ok) :
    set_state env mode fs =
      ({ fs with cacheDir := true, override := some mode },
       [["powerprofilesctl", "set", mode]]) :=
  set_state_manual_eq env fs mode hm henv

theorem c2_witness :
    "performance" ≠ "auto" ∧ envOK.Ok ∧
      set_state envOK "performance" fsEmpty =
        ({ fsEmpty with cacheDir := true, override := some "performance" },
         [["powerprofilesctl", "set", "performance"]]) :=
  ⟨by decide, by decide,
   c2_set_state_manual envOK fsEmpty "performance" (by decide) (by decide)⟩

/-- Claim C3, counterexample: with the cache directory absent and no
override file, `set_state("auto")` is claimed to do nothing to the
filesystem, but the code first runs `os.makedirs(CACHE_DIR,
exist_ok=True)` and so creates the cache directory. -/
theorem c3_counterexample :
    (set_state envOK "auto" fsNoCache).1 ≠ fsNoCache := by
  decide

/-- Claim C3, amended: `set_state("auto")` removes the override file
when it exists; apart from ensuring the cache directory exists it makes
no other filesystem change (no other flag file is touched), and it never
invokes `powerprofilesctl set` (the command trace is empty). -/
theorem c3_set_state_auto (env : Env) (fs : FS) (henv : env.Ok) :
    set_state env "auto" fs = ({ fs with cacheDir := true, override := none }, []) :=
  set_state_auto_eq env fs henv

theorem c3_witness :
    envOK.Ok ∧
      set_state envOK "auto" fsCached =
        ({ fsCached with cacheDir := true, override := none }, []) :=
  ⟨by decide, c3_set_state_auto envOK fsCached (by decide)⟩

/-- Claim C4: under any interleaving of the program's operations
(`set_state`, `toggle_notifications`, and the menu callbacks), the
single override file's content is exactly the argument of the last
effective `set_state` call (`"auto"` removing it), as predicted by the
spec-level tracker `overrideAfterOps`, and its absence is exactly what
`is_auto` reports as auto mode. -/
theorem c4_override_invariant (env : Env) (henv : env.Ok) (ops : List Op) (fs : FS) :
    (applyOps env fs ops).override = overrideAfterOps fs.override ops ∧
      (is_auto (applyOps env fs ops) = true ↔ (applyOps env fs ops).override = none) := by
  constructor
  · induction ops generalizing fs with
    | nil => rfl
    | cons op rest ih =>
      show (applyOps env (applyOp env fs op) rest).override =
        overrideAfterOps (overrideAfter fs.override op) rest
      rw [ih (applyOp env fs op), applyOp_override env henv fs op]
  · simp [is_auto, Option.isNone_iff_eq_none]

theorem c4_witness :
    envOK.Ok ∧
      ((applyOps envOK fsEmpty ops0).override = overrideAfterOps fsEmpty.override ops0 ∧
        (is_auto (applyOps envOK fsEmpty ops0) = true ↔
          (applyOps envOK fsEmpty ops0).override = none)) :=
  ⟨by decide, c4_override_invariant envOK (by decide) ops0 fsEmpty⟩

/-- Claim C5: `is_auto()` is true exactly when the override file is
absent; an override file with any content makes it false, and removing
the file flips it back to true. -/
theorem c5_is_auto_iff_no_override (fs : FS) :
    (is_auto fs = true ↔ fs.override = none) ∧
      (∀ c : String, is_auto { fs with override := some c } = false) ∧
      is_auto { fs with override := none } = true := by
  refine ⟨?_, fun c => rfl, rfl⟩
  simp [is_auto, Option.isNone_iff_eq_none]

/-- Claim C6: `label_for(p, auto)` is the prefix `"A"` (auto) or `"M"`
(manual), then `": "`, then the human-readable name for the three known
profiles and the title-cased rendering of `p` otherwise. -/
theorem c6_label_for_spec (p : String) (auto : Bool) :
    label_for p auto =
      (if auto then "A" else "M") ++ ": " ++
        (if p = "power-saver" then "Power Saver"
         else if p = "balanced" then "Balanced"
         else if p = "performance" then "Performance"
         else pyTitle p) := by
  by_cases h1 : p = "power-saver"
  · simp [label_for, PROFILE_NAMES, h1]
  · by_cases h2 : p = "balanced"
    · simp [label_for, PROFILE_NAMES, h1, h2]
    · by_cases h3 : p = "performance"
      · simp [label_for, PROFILE_NAMES, h1, h2, h3]
      · simp [label_for, PROFILE_NAMES, h1, h2, h3]

/-- Claim C7: every filesystem or subprocess failure is swallowed: a
failed read of either cached file behaves exactly as if that file were
absent; a failed `makedirs` aborts `set_state`/`toggle_notifications`
with the filesystem unchanged and no command invoked; a failed override
write leaves only the directory creation and invokes nothing (no
retry); a failed `powerprofilesctl set` leaves the already-written
override in place and the command trace empty.  In every case the
functions return normally. -/
theorem c7_failures (env : Env) (fs : FS) (mode : String) (enable : Bool) :
    (env.stateReadOk = false →
       get_profile env fs = get_profile env { fs with stateFile := none }) ∧
    (env.lastReadOk = false →
       get_profile env fs = get_profile env { fs with lastFile := none }) ∧
    (env.mkdirOk = false → fs.cacheDir = false →
       set_state env mode fs = (fs, []) ∧ toggle_notifications env enable fs = fs) ∧
    (env.writeOk = false → mode ≠ "auto" → (fs.cacheDir || env.mkdirOk) = true →
       set_state env mode fs = ({ fs with cacheDir := true }, [])) ∧
    (env.setCmdOk = false → mode ≠ "auto" → env.writeOk = true →
       (fs.cacheDir || env.mkdirOk) = true →
       set_state env mode fs = ({ fs with cacheDir := true, override := some mode }, [])) := by
  refine ⟨?_, ?_, ?_, ?_, ?_⟩
  · intro h
    cases hst : fs.stateFile <;>
      simp [get_profile, read_cached_profile, readOne, h, hst]
  · intro h
    cases hlf : fs.lastFile <;>
      simp [get_profile, read_cached_profile, readOne, h, hlf]
  · intro h hcd
    constructor <;> simp [set_state, toggle_notifications, h, hcd]
  · intro hw hm hor
    simp [set_state, hor, hm, hw]
  · intro hs hm hw hor
    simp [set_state, hor, hm, hw, hs]

theorem c7_witness :
    envAllFail.stateReadOk = false ∧
      get_profile envAllFail fsCached = get_profile envAllFail { fsCached with stateFile := none } ∧
      set_state envAllFail "performance" fsNoCache = (fsNoCache, []) ∧
      set_state envNoWrite "performance" fsEmpty = ({ fsEmpty with cacheDir := true }, []) :=
  ⟨rfl,
   (c7_failures envAllFail fsCached "performance" true).1 rfl,
   ((c7_failures envAllFail fsNoCache "performance" true).2.2.1 rfl rfl).1,
   (c7_failures envNoWrite fsEmpty "performance" true).2.2.2.1 rfl (by decide) (by decide)⟩

/-- Claim C8: after `toggle_notifications(enable)` succeeds,
`notifications_enabled()` returns `enable`; the toggle is idempotent;
and `notifications_enabled` is true exactly when the silence file is
absent (creating it flips to false, removing it flips back to true). -/
theorem c8_notifications_roundtrip (env : Env) (henv : env.Ok) (enable : Bool) (fs : FS) :
    notifications_enabled (toggle_notifications env enable fs) = enable ∧
      toggle_notifications env enable (toggle_notifications env enable fs) =
        toggle_notifications env enable fs ∧
      (notifications_enabled fs = true ↔ fs.silent = none) ∧
      (∀ c : String, notifications_enabled { fs with silent := some c } = false) ∧
      notifications_enabled { fs with silent := none } = true := by
  refine ⟨?_, ?_, ?_, fun c => rfl, rfl⟩
  · cases enable
    · rw [toggle_ok_false env fs henv]; rfl
    · rw [toggle_ok_true env fs henv]; rfl
  · cases enable
    · rw [toggle_ok_false env fs henv, toggle_ok_false env _ henv]
    · rw [toggle_ok_true env fs henv, toggle_ok_true env _ henv]
  · simp [notifications_enabled, Option.isNone_iff_eq_none]

theorem c8_witness :
    envOK.Ok ∧
      notifications_enabled (toggle_notifications envOK false fsEmpty) = false :=
  ⟨by decide, (c8_notifications_roundtrip envOK (by decide) false fsEmpty).1⟩

/-- Claim C9: `_tick` recomputes the `(profile, auto, notify)` snapshot;
when it equals the remembered snapshot it updates no label, rebuilds no
menu and leaves the remembered snapshot unchanged; when it differs it
updates the label, rebuilds the menu and remembers the new snapshot; in
either case it returns `True`, keeping the timer armed. -/
theorem c9_tick (env : Env) (fs : FS) (t : TrayState) :
    (t.lastSnapshot = some (get_profile env fs, is_auto fs, notifications_enabled fs) →
       tick env fs t =
         { tray := t, labelUpdated := false, menuRebuilt := false, keepTimer := true }) ∧
    (t.lastSnapshot ≠ some (get_profile env fs, is_auto fs, notifications_enabled fs) →
       tick env fs t =
         { tray := ⟨some (get_profile env fs, is_auto fs, notifications_enabled fs)⟩,
           labelUpdated := true, menuRebuilt := true, keepTimer := true }) ∧
    (tick env fs t).keepTimer = true := by
  refine ⟨fun h => ?_, fun h => ?_, ?_⟩
  · simp [tick, h]
  · simp only [tick]
    rw [if_pos (fun hc => h hc.symm)]
  · simp only [tick]
    split <;> rfl

theorem c9_witness :
    (({ lastSnapshot := none } : TrayState).lastSnapshot ≠
        some (get_profile envOK fsEmpty, is_auto fsEmpty, notifications_enabled fsEmpty)) ∧
      tick envOK fsEmpty { lastSnapshot := none } =
        { tray := ⟨some (get_profile envOK fsEmpty, is_auto fsEmpty,
            notifications_enabled fsEmpty)⟩,
          labelUpdated := true, menuRebuilt := true, keepTimer := true } :=
  ⟨by decide, (c9_tick envOK fsEmpty { lastSnapshot := none }).2.1 (by decide)⟩

/-- Claim C10: deactivating the Auto Mode checkbox calls
`set_state("balanced")` — it writes an override file containing exactly
`"balanced"` and invokes `powerprofilesctl set balanced` — while
deactivating a manual-profile item returns before `set_state` and
changes nothing. -/
theorem c10_deactivate (env : Env) (fs : FS) (mode : String) (henv : env.Ok) :
    on_auto env false fs =
      ({ fs with cacheDir := true, override := some "balanced" },
       [["powerprofilesctl", "set", "balanced"]]) ∧
    on_pick env false mode fs = (fs, []) := by
  constructor
  · show set_state env "balanced" fs = _
    exact set_state_manual_eq env fs "balanced" (by decide) henv
  · rfl

theorem c10_witness :
    envOK.Ok ∧
      (on_auto envOK false fsEmpty =
        ({ fsEmpty with cacheDir := true, override := some "balanced" },
         [["powerprofilesctl", "set", "balanced"]]) ∧
       on_pick envOK false "performance" fsEmpty = (fsEmpty, [])) :=
  ⟨by decide, c10_deactivate envOK fsEmpty "performance" (by decide)⟩

end PowerProfileTray
